import Mathlib

/-!
Verification of the pwnagotchi onscreen-menu plugin core.

The definitions below are shallow embeddings of the Python sources:
  * namespace `ToggleDeauth` embeds
    `plugins/onscreen_menu/scripts/toggle_deauth.py` (the Capability Gate);
  * namespace `OnscreenMenu` embeds `onscreen_menu.py` (the menu state
    machine, input debouncer, action dispatcher and paginated viewers).

Filesystem and process effects are modelled by explicit state passing; the
model assumes reads and writes that the scripts attempt succeed (the scripts
swallow IO errors), while read failures of GPIO pins are modelled explicitly
where a claim is about them.
-/

/-- Model of Python str.strip for the whitespace characters Lean knows:
drop whitespace from both ends of the string. -/
def pystrip (s : String) : String :=
  String.mk (((s.toList.dropWhile Char.isWhitespace).reverse.dropWhile
    Char.isWhitespace).reverse)

namespace ToggleDeauth

/-- One line of the append-only audit log, as built by `main` in
`toggle_deauth.py`: a JSON object with fields ts, action, method and
agent_notify. -/
structure AuditEntry where
  ts : String
  action : String
  method : String
  agent_notify : Bool
deriving DecidableEq

/-- The filesystem state the script touches: the persisted flag file
(DEAUTH_FLAG, `none` when absent), presence of the allow artifact
(DEAUTH_ALLOW), the token file (DEAUTH_TOKEN, `none` when absent), the
audit log (DEAUTH_LOG, one entry per line), the list of agent notifications
spawned so far (curl POSTs to AGENT_HTTP), and the current clock reading
used for the ts field. -/
structure GateState where
  flagFile : Option String
  allowExists : Bool
  tokenFile : Option String
  auditLog : List AuditEntry
  notifications : List String
  now : String
deriving DecidableEq

/-- Reading the persisted flag as `main` does: read the file, strip it and
compare with the string 1; an absent file reads as false. -/
def readFlag (s : GateState) : Bool :=
  match s.flagFile with
  | some v => pystrip v == "1"
  | none => false

/-- `_notify_agent` from `toggle_deauth.py`: if the token file is missing,
return false without doing anything; otherwise read the token, spawn the
curl POST (recorded in `notifications`) and return true. -/
def notify_agent (s : GateState) (action : String) : GateState × Bool :=
  match s.tokenFile with
  | none => (s, false)
  | some _ => ({ s with notifications := s.notifications ++ [action] }, true)

/-- `main` from `toggle_deauth.py`: read the current flag, flip it, persist
the new value, attempt agent notification only when the allow artifact
exists, and append one audit entry (the inlined `_audit`). -/
def main (s : GateState) : GateState :=
  let current := readFlag s
  let new := !current
  let s1 : GateState := { s with flagFile := some (if new then "1" else "0") }
  let action := if new then "arm" else "disarm"
  let result := if s1.allowExists then notify_agent s1 action else (s1, false)
  let s2 := result.1
  let entry : AuditEntry :=
    { ts := s2.now, action := action, method := "script", agent_notify := result.2 }
  { s2 with auditLog := s2.auditLog ++ [entry] }

theorem notify_agent_flagFile (s : GateState) (a : String) :
    (notify_agent s a).1.flagFile = s.flagFile := by
  unfold notify_agent
  cases s.tokenFile <;> rfl

theorem main_flagFile (s : GateState) :
    (main s).flagFile = some (if readFlag s then "0" else "1") := by
  unfold main
  cases hA : s.allowExists <;> cases hT : s.tokenFile <;>
    cases h : readFlag s <;>
    simp [notify_agent, hA, hT, h]

theorem readFlag_main (s : GateState) : readFlag (main s) = !readFlag s := by
  cases hc : readFlag s <;>
    · rw [readFlag, main_flagFile s, hc]
      decide

theorem main_auditLog (s : GateState) :
    (main s).auditLog =
      s.auditLog ++
        [{ ts := s.now,
           action := if readFlag s then "disarm" else "arm",
           method := "script",
           agent_notify := s.allowExists && s.tokenFile.isSome }] := by
  unfold main
  cases hA : s.allowExists <;> cases hT : s.tokenFile <;>
    cases h : readFlag s <;>
    simp [notify_agent, hA, hT, h]

/-- C1: for every initial persisted deauth-flag state, running the
Capability Gate toggle (toggle_deauth.main) twice returns the persisted
flag to its initial state, and each single toggle appends exactly one
entry to the audit log; the appended-list equation shows the log only
grows and existing entries are never mutated or removed. -/
theorem double_toggle_roundtrip_and_audit_append (s : GateState) :
    readFlag (main (main s)) = readFlag s ∧
    (∃ e : AuditEntry, (main s).auditLog = s.auditLog ++ [e]) ∧
    (main s).auditLog.length = s.auditLog.length + 1 := by
  refine ⟨?_, ⟨_, main_auditLog s⟩, ?_⟩
  · rw [readFlag_main, readFlag_main, Bool.not_not]
  · rw [main_auditLog]
    simp

theorem main_notifications_of_no_allow (s : GateState)
    (h : s.allowExists = false) :
    (main s).notifications = s.notifications := by
  unfold main
  cases hT : s.tokenFile <;> cases hc : readFlag s <;>
    simp [notify_agent, h, hT, hc]

/-- C2: when the allow artifact (DEAUTH_ALLOW) is absent, the audit entry
written by toggle_deauth.main has agent_notify = false, no agent
notification is attempted (the notification list is unchanged), and the
persisted flag is still flipped to the opposite of its prior value. -/
theorem toggle_without_allow_artifact (s : GateState)
    (h : s.allowExists = false) :
    (main s).auditLog = s.auditLog ++
      [{ ts := s.now, action := if readFlag s then "disarm" else "arm",
         method := "script", agent_notify := false }] ∧
    (main s).notifications = s.notifications ∧
    readFlag (main s) = !readFlag s := by
  refine ⟨?_, main_notifications_of_no_allow s h, readFlag_main s⟩
  rw [main_auditLog, h]
  simp

/-- Witness for C2 at a concrete state: flag file holding 0, allow artifact
absent, token absent, empty audit log. -/
theorem toggle_without_allow_artifact_witness :
    (main ⟨some "0", false, none, [], [], "T0"⟩).auditLog =
        [{ ts := "T0", action := "arm", method := "script",
           agent_notify := false }] ∧
    (main ⟨some "0", false, none, [], [], "T0"⟩).notifications = [] ∧
    readFlag (main ⟨some "0", false, none, [], [], "T0"⟩) = true := by
  have h := toggle_without_allow_artifact ⟨some "0", false, none, [], [], "T0"⟩ rfl
  simpa using h

end ToggleDeauth

namespace OnscreenMenu

/-- One entry of `Plugin.menu_items` in `onscreen_menu.py`: a label and an
optional action; the action is identified by the name of the bound method,
`none` models Python None (the separator row). -/
structure MenuEntry where
  label : String
  action : Option String
deriving DecidableEq

/-- The mutable menu state of the Plugin object read and written by
`on_ui_update`: the ready flag set by on_loaded, the open flag and the
selection index. -/
structure MenuState where
  ready : Bool
  menu_open : Bool
  menu_index : Nat
deriving DecidableEq

/-- The debounced press edges observed in one tick of `on_ui_update`, one
flag per polled pin: KEY3 (toggle), UP, DOWN, LEFT, KEY2 (back), RIGHT,
KEY1 (select). -/
structure Edges where
  key3 : Bool
  up : Bool
  down : Bool
  left : Bool
  key2 : Bool
  right : Bool
  key1 : Bool
deriving DecidableEq

/-- The fixed `menu_items` list constructed in `Plugin.__init__`. -/
def menu_items : List MenuEntry :=
  [ ⟨"Status", some "_act_status"⟩,
    ⟨"Restart pwnagotchi", some "_act_restart_service"⟩,
    ⟨"Toggle deauth", some "_act_toggle_deauth"⟩,
    ⟨"Reboot device", some "_act_reboot_pi"⟩,
    ⟨"Shutdown device", some "_act_shutdown_pi"⟩,
    ⟨"—", none⟩,
    ⟨"View events (40)", some "_act_show_events"⟩,
    ⟨"Saved nets (10)", some "_act_show_networks"⟩,
    ⟨"Upload logs", some "_act_upload_logs"⟩,
    ⟨"PiSugar: battery", some "_act_pisugar_status"⟩ ]

/-- Python integer modulo with a natural modulus, as used for the index
arithmetic `(self.menu_index +- 1) % len(self.menu_items)`: for a positive
modulus the result is the nonnegative remainder. -/
def pymod (a : Int) (n : Nat) : Nat := (a % (n : Int)).toNat

/-- The spec-level navigation step `move(delta)` realised by the index
updates of `on_ui_update`: `(index + delta) mod count`. -/
def move (n : Nat) (i : Nat) (delta : Int) : Nat := pymod ((i : Int) + delta) n

/-- One tick of `Plugin.on_ui_update` over the debounced edge snapshot of
that tick.  Returns the updated menu state together with the action
dispatched this tick, if any (label and action of the selected entry, for
which the code starts a `_run_action` thread).  The trailing `_draw_menu`
call has no effect on this state.  The Python code indexes
`self.menu_items[self.menu_index]` directly; the index stays in range
because it is only ever written modulo the list length, so the `none`
fallback of `List.get?` is unreachable from reachable states. -/
def on_ui_update (items : List MenuEntry) (s : MenuState) (e : Edges) :
    MenuState × Option (String × String) :=
  if s.ready = false then (s, none)
  else
    let s1 := if e.key3 then { s with menu_open := !s.menu_open } else s
    if s1.menu_open = false then (s1, none)
    else if e.up then
      ({ s1 with menu_index := pymod ((s1.menu_index : Int) - 1) items.length }, none)
    else if e.down then
      ({ s1 with menu_index := pymod ((s1.menu_index : Int) + 1) items.length }, none)
    else if e.left || e.key2 then ({ s1 with menu_open := false }, none)
    else if e.right || e.key1 then
      match items[s1.menu_index]? with
      | some entry =>
        match entry.action with
        | some a => (s1, some (entry.label, a))
        | none => (s1, none)
      | none => (s1, none)
    else (s1, none)

theorem move_lt (n i : Nat) (delta : Int) (h : 1 ≤ n) : move n i delta < n := by
  have hn : (0 : Int) < (n : Int) := by exact_mod_cast h
  have h1 : 0 ≤ ((i : Int) + delta) % (n : Int) := Int.emod_nonneg _ (by omega)
  have h2 : ((i : Int) + delta) % (n : Int) < (n : Int) := Int.emod_lt_of_pos _ hn
  unfold move pymod
  omega

theorem move_one (n j : Nat) : move n j 1 = (j + 1) % n := by
  unfold move pymod
  rw [show ((j : Int) + 1) = (((j + 1 : Nat)) : Int) by push_cast; ring,
    ← Int.natCast_mod, Int.toNat_natCast]

theorem iterate_move_one (n : Nat) : ∀ (k i : Nat), i < n →
    Nat.iterate (fun j => move n j 1) k i = (i + k) % n := by
  intro k
  induction k with
  | zero =>
    intro i hi
    simpa using (Nat.mod_eq_of_lt hi).symm
  | succ k ih =>
    intro i hi
    have hpos : 0 < n := by omega
    rw [Function.iterate_succ_apply]
    rw [ih (move n i 1) (move_lt n i 1 hpos)]
    rw [move_one, Nat.mod_add_mod]
    congr 1
    omega

/-- C5: for every menu with N >= 1 entries and every starting index in
[0, N), a navigation step move(delta) = (index + delta) mod N yields an
index in [0, N), and applying move(1) N consecutive times returns the
selection index to its starting value. -/
theorem move_range_and_wrap (n i : Nat) (delta : Int)
    (h1 : 1 ≤ n) (h2 : i < n) :
    move n i delta < n ∧ Nat.iterate (fun j => move n j 1) n i = i := by
  refine ⟨move_lt n i delta h1, ?_⟩
  rw [iterate_move_one n n i h2, Nat.add_mod_right, Nat.mod_eq_of_lt h2]

/-- Witness for C5 at N = 10 (the length of menu_items), starting index 3,
delta = -1. -/
theorem move_range_and_wrap_witness :
    (1 : Nat) ≤ 10 ∧ (3 : Nat) < 10 ∧
      (move 10 3 (-1) < 10 ∧ Nat.iterate (fun j => move 10 j 1) 10 3 = 3) :=
  ⟨by decide, by decide, move_range_and_wrap 10 3 (-1) (by decide) (by decide)⟩

/-- C8: a tick in which a select edge (RIGHT or KEY1) fires while the
currently selected entry is a separator (action None) is a no-op: the menu
state is returned unchanged and no action is dispatched. -/
theorem select_separator_noop (items : List MenuEntry) (s : MenuState)
    (e : Edges) (entry : MenuEntry)
    (hready : s.ready = true) (hopen : s.menu_open = true)
    (hk3 : e.key3 = false) (hup : e.up = false) (hdown : e.down = false)
    (hleft : e.left = false) (hk2 : e.key2 = false)
    (hsel : e.right = true ∨ e.key1 = true)
    (hget : items[s.menu_index]? = some entry)
    (hact : entry.action = none) :
    on_ui_update items s e = (s, none) := by
  unfold on_ui_update
  rcases hsel with h | h <;>
    simp [hready, hopen, hk3, hup, hdown, hleft, hk2, h, hget, hact]

/-- Witness for C8: selecting the separator row (index 5 of menu_items)
with a RIGHT edge leaves the state unchanged and dispatches nothing. -/
theorem select_separator_noop_witness :
    on_ui_update menu_items ⟨true, true, 5⟩
        ⟨false, false, false, false, false, true, false⟩
      = (⟨true, true, 5⟩, none) :=
  select_separator_noop menu_items ⟨true, true, 5⟩
    ⟨false, false, false, false, false, true, false⟩ ⟨"—", none⟩
    rfl rfl rfl rfl rfl rfl rfl (Or.inl rfl) (by decide) rfl

/-- The masking function of the amended C4 priority rule: keep the KEY3
toggle edge, and among the chained navigation/back/select edges keep only
the highest-priority one that fires (up, then down, then back, then
select). -/
def firstChainEdge (e : Edges) : Edges :=
  if e.up then
    { e with down := false, left := false, key2 := false, right := false,
             key1 := false }
  else if e.down then
    { e with left := false, key2 := false, right := false, key1 := false }
  else if e.left || e.key2 then { e with right := false, key1 := false }
  else e

/-- C4 counterexample: with the menu closed at index 0, a tick in which the
KEY3 toggle edge and the DOWN navigation edge both fire opens the menu AND
moves the selection from 0 to 1, so two edges act in one tick and the
open/close toggle edge does not suppress the navigation edge of the same
tick (it does so only when it closes the menu). -/
theorem toggle_open_does_not_suppress :
    on_ui_update menu_items ⟨true, false, 0⟩
        ⟨true, false, true, false, false, false, false⟩
      = (⟨true, true, 1⟩, none) := by decide

/-- C4 amended: among the navigation/back/select edges, at most one is
acted on per tick, in the priority order up, down, back, select (masking
every lower-priority edge of the tick does not change the outcome); the
open/close toggle edge is processed first, and when it closes the menu it
suppresses all other edges of that tick - but when it opens the menu the
remaining edges of the tick are still processed. -/
theorem tick_priority :
    (∀ (items : List MenuEntry) (s : MenuState) (e : Edges),
        s.ready = true → s.menu_open = true → e.key3 = true →
        on_ui_update items s e = ({ s with menu_open := false }, none)) ∧
    (∀ (items : List MenuEntry) (s : MenuState) (e : Edges),
        on_ui_update items s e = on_ui_update items s (firstChainEdge e)) := by
  constructor
  · intro items s e hr ho hk
    unfold on_ui_update
    simp [hr, ho, hk]
  · intro items s e
    obtain ⟨k3, u, d, l, k2, r, k1⟩ := e
    cases u <;> cases d <;> cases l <;> cases k2 <;> rfl

/-- Witness for C4 amended: a toggle edge with the menu open closes it and
suppresses the simultaneous navigation and select edges; masking a tick
with simultaneous down, right and key1 edges to its highest-priority edge
gives the same outcome. -/
theorem tick_priority_witness :
    on_ui_update menu_items ⟨true, true, 2⟩
        ⟨true, true, false, true, false, true, false⟩
      = (⟨true, false, 2⟩, none) ∧
    on_ui_update menu_items ⟨true, true, 0⟩
        ⟨false, true, true, false, false, true, true⟩
      = on_ui_update menu_items ⟨true, true, 0⟩
          (firstChainEdge ⟨false, true, true, false, false, true, true⟩) :=
  ⟨tick_priority.1 menu_items ⟨true, true, 2⟩
      ⟨true, true, false, true, false, true, false⟩ rfl rfl rfl,
   tick_priority.2 menu_items ⟨true, true, 0⟩
      ⟨false, true, true, false, false, true, true⟩⟩

/-- A menu session with the concurrently spawned `_run_action` threads:
the menu state polled by the host, the number of action threads currently
sitting in their modal confirmation-wait loop, and the total number of
action threads started so far.  `on_ui_update` starts a daemon thread per
dispatched selection without consulting any in-flight action. -/
structure SysState where
  menu : MenuState
  waiting : Nat
  dispatched : Nat
deriving DecidableEq

/-- One scheduler event of a session interleaving: either the host invokes
`on_ui_update` with the edge snapshot that this call observes on the
shared pins, or one waiting action thread samples the pins inside its
modal wait loop (the flag says whether it observes a confirm or back
edge).  Which context observes a given physical press is a scheduling
choice, since the poll loop and the action threads read the same pins with
no synchronisation. -/
inductive SysEv where
  | poll (e : Edges)
  | modalPoll (confirmOrBack : Bool)
deriving DecidableEq

/-- One step of the interleaved session.  A `poll` event runs
`on_ui_update`; a dispatched action is modelled as reaching its modal wait
before the next event (an admissible schedule, since the action body runs
on its own thread).  A `modalPoll` event lets one waiting thread leave its
wait loop when it observes a confirm or back edge. -/
def sysStep (items : List MenuEntry) (s : SysState) : SysEv → SysState
  | .poll e =>
    match on_ui_update items s.menu e with
    | (m, some _) => ⟨m, s.waiting + 1, s.dispatched + 1⟩
    | (m, none) => ⟨m, s.waiting, s.dispatched⟩
  | .modalPoll b =>
    if b && !(s.waiting == 0) then ⟨s.menu, s.waiting - 1, s.dispatched⟩
    else s

/-- Run a session interleaving from a state. -/
def sysRun (items : List MenuEntry) (s : SysState) : List SysEv → SysState
  | [] => s
  | ev :: evs => sysRun items (sysStep items s ev) evs

/-- C3 counterexample: from an open menu with the Status entry selected, a
select edge observed by the polling loop dispatches a first action thread;
while that thread is still in its modal confirmation wait (it sampled the
pins once and saw no edge), a second select edge observed by the polling
loop dispatches a second action thread - two action threads are then in
their confirmation waits at once, so the modal wait does not prevent the
polling loop from starting another action. -/
theorem second_action_during_modal_wait :
    (sysRun menu_items ⟨⟨true, true, 0⟩, 0, 0⟩
        [SysEv.poll ⟨false, false, false, false, false, true, false⟩]).waiting
      = 1 ∧
    (sysRun menu_items ⟨⟨true, true, 0⟩, 0, 0⟩
        [SysEv.poll ⟨false, false, false, false, false, true, false⟩,
         SysEv.modalPoll false,
         SysEv.poll ⟨false, false, false, false, false, true, false⟩]).dispatched
      = 2 ∧
    (sysRun menu_items ⟨⟨true, true, 0⟩, 0, 0⟩
        [SysEv.poll ⟨false, false, false, false, false, true, false⟩,
         SysEv.modalPoll false,
         SysEv.poll ⟨false, false, false, false, false, true, false⟩]).waiting
      = 2 := by decide

/-- C3 amended: the code does not enforce mutual exclusion between
dispatched actions.  Whenever the menu is open on an entry that has an
action and at least one previously dispatched action thread is still in
its modal confirmation wait, a select edge observed by the polling loop
starts a further action thread (the dispatch count and the number of
waiting threads both grow). -/
theorem select_during_wait_starts_second_action (s : SysState)
    (e : Edges) (entry : MenuEntry) (a : String)
    (hready : s.menu.ready = true) (hopen : s.menu.menu_open = true)
    (hk3 : e.key3 = false) (hup : e.up = false) (hdown : e.down = false)
    (hleft : e.left = false) (hk2 : e.key2 = false)
    (hsel : e.right = true ∨ e.key1 = true)
    (hget : menu_items[s.menu.menu_index]? = some entry)
    (hact : entry.action = some a)
    (_hwait : 1 ≤ s.waiting) :
    (sysStep menu_items s (SysEv.poll e)).dispatched = s.dispatched + 1 ∧
    (sysStep menu_items s (SysEv.poll e)).waiting = s.waiting + 1 := by
  have htick : on_ui_update menu_items s.menu e = (s.menu, some (entry.label, a)) := by
    unfold on_ui_update
    rcases hsel with h | h <;>
      simp [hready, hopen, hk3, hup, hdown, hleft, hk2, h, hget, hact]
  simp [sysStep, htick]

/-- Witness for C3 amended: with one thread already waiting, a RIGHT edge
on the Status entry dispatches a second thread. -/
theorem select_during_wait_starts_second_action_witness :
    (sysStep menu_items ⟨⟨true, true, 0⟩, 1, 1⟩
        (SysEv.poll ⟨false, false, false, false, false, true, false⟩)).dispatched = 2 ∧
    (sysStep menu_items ⟨⟨true, true, 0⟩, 1, 1⟩
        (SysEv.poll ⟨false, false, false, false, false, true, false⟩)).waiting = 2 :=
  select_during_wait_starts_second_action ⟨⟨true, true, 0⟩, 1, 1⟩
    ⟨false, false, false, false, false, true, false⟩ ⟨"Status", some "_act_status"⟩
    "_act_status" rfl rfl rfl rfl rfl rfl rfl (Or.inl rfl) (by decide) rfl
    (by decide)

/-- `Plugin._btn` applied to one raw pin read: `some b` is a successful
GPIO.input read (b true when the level is LOW, that is pressed), `none` a
read that raises; the try/except treats a raising read as not pressed. -/
def _btn (r : Option Bool) : Bool := r.getD false

/-- `Plugin._edge` over the finite stream of raw reads the call consumes:
if the first read is pressed, the code sleeps through the settle delay,
spins consuming reads until one is not pressed, and returns true exactly
once for that press; otherwise it returns false after the single read.
Reads past the end of the stream model an idle (released) pin.  The
function is total: a read failure (a `none` sample) is just a not-pressed
read, so `_edge` never raises. -/
def _edge : List (Option Bool) → Bool × List (Option Bool)
  | [] => (false, [])
  | r :: rest => if _btn r then (true, rest.dropWhile _btn) else (false, rest)

theorem length_dropWhile_le {α : Type} (p : α → Bool) (l : List α) :
    (l.dropWhile p).length ≤ l.length := by
  induction l with
  | nil => simp [List.dropWhile]
  | cons a t ih =>
    cases h : p a
    · simp [List.dropWhile, h]
    · simp [List.dropWhile, h]
      omega

/-- Total number of true returns over repeatedly calling `_edge` until the
read stream is exhausted (each call consumes at least one read). -/
def pollCount (s : List (Option Bool)) : Nat :=
  match s with
  | [] => 0
  | r :: rest =>
    if _btn r then 1 + pollCount (rest.dropWhile _btn) else pollCount rest
termination_by s.length
decreasing_by
  all_goals simp only [List.length_cons]
  · exact Nat.lt_succ_of_le (length_dropWhile_le _ _)
  · omega

/-- Number of maximal pressed runs in a boolean level stream: each
physical press-and-release cycle contributes exactly one run. -/
def pressCount (bs : List Bool) : Nat :=
  match bs with
  | [] => 0
  | b :: rest =>
    if b then 1 + pressCount (rest.dropWhile (fun x => x)) else pressCount rest
termination_by bs.length
decreasing_by
  all_goals simp only [List.length_cons]
  · exact Nat.lt_succ_of_le (length_dropWhile_le _ _)
  · omega

theorem dropWhile_map_btn (l : List (Option Bool)) :
    (l.dropWhile _btn).map _btn = (l.map _btn).dropWhile (fun x => x) := by
  induction l with
  | nil => simp [List.dropWhile]
  | cons a t ih =>
    cases h : _btn a <;> simp [List.dropWhile, List.map, h, ih]

theorem pollCount_eq_pressCount (s : List (Option Bool)) :
    pollCount s = pressCount (s.map _btn) := by
  match s with
  | [] => simp [pollCount, pressCount]
  | r :: rest =>
    cases h : _btn r
    · have ih := pollCount_eq_pressCount rest
      simp only [pollCount, pressCount, List.map_cons, h]
      simpa using ih
    · have ih := pollCount_eq_pressCount (rest.dropWhile _btn)
      simp only [pollCount, pressCount, List.map_cons, h, ← dropWhile_map_btn]
      simpa using ih
termination_by s.length
decreasing_by
  all_goals simp only [List.length_cons]
  · omega
  · exact Nat.lt_succ_of_le (length_dropWhile_le _ _)

/-- C9: the debouncer never raises and debounces idempotently.  A failing
raw read at the head of the stream makes `_edge` return false immediately
after that single read; each `_edge` call on a nonempty stream contributes
one true return exactly when its first read is pressed, consuming the
whole pressed run; and over every finite read stream - at every poll
frequency, since the reads ARE the polls - the total number of true
returns equals the number of maximal pressed runs, that is one true per
physical press-and-release cycle. -/
theorem edge_never_raises_and_counts_presses :
    (∀ rest : List (Option Bool), _edge (none :: rest) = (false, rest)) ∧
    (∀ (r : Option Bool) (rest : List (Option Bool)),
        pollCount (r :: rest) =
          (if (_edge (r :: rest)).1 then 1 else 0) +
            pollCount (_edge (r :: rest)).2) ∧
    (∀ s : List (Option Bool), pollCount s = pressCount (s.map _btn)) := by
  refine ⟨fun rest => rfl, ?_, pollCount_eq_pressCount⟩
  intro r rest
  cases h : _btn r <;> simp [pollCount, _edge, h]

/-- Model of Python str.splitlines for newline-delimited text: split at
each newline character; a terminal newline does not produce a trailing
empty line, and the empty string yields no lines. -/
def splitlines (s : String) : List String :=
  go s.toList []
where
  go : List Char → List Char → List String
    | [], [] => []
    | [], acc => [String.mk acc.reverse]
    | c :: cs, acc =>
      if c = '\n' then String.mk acc.reverse :: go cs []
      else go cs (c :: acc)

/-- The footer line of the result screen drawn by `_run_action`. -/
def FOOTER_OK : String := "RIGHT/KEY1=OK  LEFT/KEY2=Back"

/-- The result screen of `Plugin._run_action`.  The action body is
modelled as `Except String (Option String)`: `Except.error` is a raised
exception carrying its message, `Except.ok` a normal return (`none` is
Python None, which like the empty string is falsy and replaced by the
literal Done.).  The value is the list of lines drawn on the result
screen; after drawing them the code blocks in a modal wait until a confirm
or back edge.  The try/except makes this function total in the body
outcome: an exception raised by the body never escapes to the polling
loop, it only selects the error screen. -/
def _run_action (label : String) (body : Except String (Option String)) :
    List String :=
  match body with
  | .error e => [label, "", "Error: " ++ e, "", FOOTER_OK]
  | .ok r =>
    let out := r.getD ""
    let out := if out = "" then "Done." else out
    [label ++ ":"] ++ (splitlines out).take 8 ++ ["", FOOTER_OK]

/-- C6: for every action body, the dispatcher catches a raised exception
and draws an error screen whose sole content line renders the error
message (with the fixed Error: prefix), never propagating the exception to
the polling loop (the embedding of `_run_action` is a total function of
the body outcome); for a body that returns a nonempty output, the screen
is the label line followed by the first 8 lines of the output plus the
fixed footer hint. -/
theorem run_action_error_and_success (label e out : String) (h : out ≠ "") :
    _run_action label (Except.error e) =
      [label, "", "Error: " ++ e, "", FOOTER_OK] ∧
    _run_action label (Except.ok (some out)) =
      [label ++ ":"] ++ (splitlines out).take 8 ++ ["", FOOTER_OK] := by
  constructor
  · rfl
  · simp [_run_action, h]

/-- Witness for C6: a raised exception with message boom, and a body
returning the single line svc up. -/
theorem run_action_error_and_success_witness :
    "svc up" ≠ "" ∧
    _run_action "Status" (Except.error "boom") =
      ["Status", "", "Error: boom", "", FOOTER_OK] ∧
    _run_action "Status" (Except.ok (some "svc up")) =
      ["Status:", "svc up", "", FOOTER_OK] := by
  have h := run_action_error_and_success "Status" "boom" "svc up" (by decide)
  refine ⟨by decide, h.1, ?_⟩
  rw [h.2]
  decide

/-- The footer line of the pagination screens of `_act_show_events` and
`_act_show_networks`. -/
def EV_FOOTER : String := "RIGHT/KEY1=next  LEFT/KEY2=back"

/-- The page chunking of `_act_show_events`: consecutive slices of six
lines, from the list comprehension over range(0, len(last), 6). -/
def chunks6 (l : List String) : List (List String) :=
  match l with
  | [] => []
  | a :: t => (a :: t.take 5) :: chunks6 (t.drop 5)
termination_by l.length
decreasing_by simp; omega

/-- The edge a pagination wait loop eventually observes: confirm (advance)
or back (abort). -/
inductive PageKey where
  | next
  | back
deriving DecidableEq

/-- The per-page loop of `_act_show_events`: each page is drawn (its chunk
plus a blank line and the footer), then the loop blocks until it observes
a confirm edge (advance, or finish after the last page) or a back edge
(return the empty string at once).  `keys i` is the edge the wait on page
i observes.  Returns the drawn pages and the return value of the action
body. -/
def runPages (keys : Nat → PageKey) :
    List (List String) → Nat → List (List String) × String
  | [], _ => ([], "End of events.")
  | c :: cs, i =>
    match keys i with
    | .next =>
      let r := runPages keys cs (i + 1)
      ((c ++ ["", EV_FOOTER]) :: r.1, r.2)
    | .back => ([c ++ ["", EV_FOOTER]], "")

/-- The per-network loop of `_act_show_networks`: one SSID per screen,
confirm advances, back returns the empty string at once. -/
def runNetPages (keys : Nat → PageKey) :
    List String → Nat → List (List String) × String
  | [], _ => ([], "End of networks.")
  | ssid :: ss, i =>
    match keys i with
    | .next =>
      let r := runNetPages keys ss (i + 1)
      (["SSID: " ++ ssid, "", EV_FOOTER] :: r.1, r.2)
    | .back => ([["SSID: " ++ ssid, "", EV_FOOTER]], "")

theorem chunks6_nil : chunks6 [] = [] := by
  simp [chunks6]

theorem chunks6_cons_eq (l : List String) (h : l ≠ []) :
    chunks6 l = l.take 6 :: chunks6 (l.drop 6) := by
  match l with
  | [] => exact absurd rfl h
  | a :: t => simp [chunks6]

theorem chunks6_flatten (l : List String) : (chunks6 l).flatten = l := by
  match l with
  | [] => simp [chunks6]
  | a :: t =>
    have ih := chunks6_flatten (t.drop 5)
    simp [chunks6, ih]
termination_by l.length
decreasing_by simp; omega

/-- C7: for every input list of 22 lines and the fixed page size 6, the
events viewer produces exactly 4 pages of sizes 6, 6, 6 and 4 whose
concatenation is the input in original order; when the wait on page 1
observes confirm and the wait on page 2 observes back, exactly the first
two pages are drawn (pages 3 and 4 are never rendered) and the viewer
returns at once with the empty string.  The viewer is a pure function of
its input: aborting changes no caller state. -/
theorem events_pagination (lines : List String) (keys : Nat → PageKey)
    (hlen : lines.length = 22) (h0 : keys 0 = PageKey.next)
    (h1 : keys 1 = PageKey.back) :
    (chunks6 lines).map List.length = [6, 6, 6, 4] ∧
    (chunks6 lines).flatten = lines ∧
    (runPages keys (chunks6 lines) 0).1 =
      [lines.take 6 ++ ["", EV_FOOTER],
       (lines.drop 6).take 6 ++ ["", EV_FOOTER]] ∧
    (runPages keys (chunks6 lines) 0).2 = "" := by
  have h1ne : lines ≠ [] := by
    intro hE
    rw [hE] at hlen
    exact absurd hlen (by decide)
  have d6 : (lines.drop 6).length = 16 := by rw [List.length_drop, hlen]
  have d12 : ((lines.drop 6).drop 6).length = 10 := by rw [List.length_drop, d6]
  have d18 : (((lines.drop 6).drop 6).drop 6).length = 4 := by
    rw [List.length_drop, d12]
  have h2ne : lines.drop 6 ≠ [] := by
    intro hE
    rw [hE] at d6
    exact absurd d6 (by decide)
  have h3ne : (lines.drop 6).drop 6 ≠ [] := by
    intro hE
    rw [hE] at d12
    exact absurd d12 (by decide)
  have h4ne : ((lines.drop 6).drop 6).drop 6 ≠ [] := by
    intro hE
    rw [hE] at d18
    exact absurd d18 (by decide)
  have h24 : (((lines.drop 6).drop 6).drop 6).drop 6 = [] := by
    rw [← List.length_eq_zero, List.length_drop, d18]
  have hch : chunks6 lines =
      [lines.take 6, (lines.drop 6).take 6, ((lines.drop 6).drop 6).take 6,
       (((lines.drop 6).drop 6).drop 6).take 6] := by
    rw [chunks6_cons_eq _ h1ne, chunks6_cons_eq _ h2ne, chunks6_cons_eq _ h3ne,
      chunks6_cons_eq _ h4ne, h24, chunks6_nil]
  have hmap : (chunks6 lines).map List.length = [6, 6, 6, 4] := by
    rw [hch]
    simp only [List.map, List.length_take, hlen, d6, d12, d18]
    decide
  have hrun : runPages keys (chunks6 lines) 0 =
      ([lines.take 6 ++ ["", EV_FOOTER],
        (lines.drop 6).take 6 ++ ["", EV_FOOTER]], "") := by
    rw [hch]
    simp [runPages, h0, h1]
  exact ⟨hmap, chunks6_flatten lines, by rw [hrun], by rw [hrun]⟩

/-- Witness for C7 at a concrete 22-line input, with confirm on page 1 and
back on page 2. -/
theorem events_pagination_witness :
    (List.replicate 22 "x").length = 22 ∧
    (chunks6 (List.replicate 22 "x")).map List.length = [6, 6, 6, 4] ∧
    (chunks6 (List.replicate 22 "x")).flatten = List.replicate 22 "x" ∧
    (runPages (fun i => if i == 0 then PageKey.next else PageKey.back)
        (chunks6 (List.replicate 22 "x")) 0).1 =
      [List.replicate 6 "x" ++ ["", EV_FOOTER],
       List.replicate 6 "x" ++ ["", EV_FOOTER]] ∧
    (runPages (fun i => if i == 0 then PageKey.next else PageKey.back)
        (chunks6 (List.replicate 22 "x")) 0).2 = "" := by
  have h := events_pagination (List.replicate 22 "x")
    (fun i => if i == 0 then PageKey.next else PageKey.back) rfl rfl rfl
  refine ⟨rfl, h.1, h.2.1, ?_, h.2.2.2⟩
  rw [h.2.2.1]
  decide

/-- C10: a dispatched action whose body returns None or the empty string -
in particular the events and networks viewers when aborted with a back
edge, both of which return the empty string - is displayed as the literal
fallback Done. under the label line instead of an empty result screen. -/
theorem empty_result_shows_done (label : String) (c : List String)
    (cs : List (List String)) (n : String) (ns : List String)
    (keys keys2 : Nat → PageKey) (i j : Nat)
    (hk : keys i = PageKey.back) (hk2 : keys2 j = PageKey.back) :
    _run_action label (Except.ok none) =
      [label ++ ":", "Done.", "", FOOTER_OK] ∧
    _run_action label (Except.ok (some "")) =
      [label ++ ":", "Done.", "", FOOTER_OK] ∧
    (runPages keys (c :: cs) i).2 = "" ∧
    (runNetPages keys2 (n :: ns) j).2 = "" ∧
    _run_action label (Except.ok (some (runPages keys (c :: cs) i).2)) =
      [label ++ ":", "Done.", "", FOOTER_OK] := by
  have hdone : splitlines "Done." = ["Done."] := by decide
  have hE : (runPages keys (c :: cs) i).2 = "" := by simp [runPages, hk]
  have hN : (runNetPages keys2 (n :: ns) j).2 = "" := by simp [runNetPages, hk2]
  refine ⟨?_, ?_, hE, hN, ?_⟩
  · simp [_run_action, hdone]
  · simp [_run_action, hdone]
  · rw [hE]
    simp [_run_action, hdone]

/-- Witness for C10: aborting the events viewer on its first page and the
networks viewer on its first SSID both return the empty string, displayed
as Done. -/
theorem empty_result_shows_done_witness :
    _run_action "View events (40)" (Except.ok none) =
      ["View events (40):", "Done.", "", FOOTER_OK] ∧
    _run_action "View events (40)" (Except.ok (some "")) =
      ["View events (40):", "Done.", "", FOOTER_OK] ∧
    (runPages (fun _ => PageKey.back) [["l1"]] 0).2 = "" ∧
    (runNetPages (fun _ => PageKey.back) ["home"] 0).2 = "" ∧
    _run_action "View events (40)"
        (Except.ok (some (runPages (fun _ => PageKey.back) [["l1"]] 0).2)) =
      ["View events (40):", "Done.", "", FOOTER_OK] :=
  empty_result_shows_done "View events (40)" ["l1"] [] "home" []
    (fun _ => PageKey.back) (fun _ => PageKey.back) 0 0 rfl rfl

end OnscreenMenu
